import Mathlib

/-!
# Verification of the rdap-client request-and-format pipeline

Shallow embedding of `src/App.tsx` (the single React component `RDAPLookup`):
the `RDAPResponse` data model, the pure formatter `formatRDAPResult`, the
state transition performed by `fetchRDAP` (with the single HTTP request it
issues modelled as an explicit request trace), the user-event gating of the
search button and the Enter key, and `handleDownload`.

JavaScript conventions are modelled explicitly:
* an absent / `undefined` field is `Option.none`;
* the idiom `x || "N/A"` is `orNA` (both `undefined` and the empty string
  are falsy);
* `new Date(d).toLocaleString()` depends on the ambient locale and time
  zone, so the formatter takes the ambient date renderer as an explicit
  parameter `renderDate : String → String`.
-/

set_option autoImplicit false
set_option maxRecDepth 100000

namespace RDAP

/-- One entry of the jCard property array `vcardArray[1]`, as the code
consumes it: `valid` models the guard `Array.isArray(item) && item.length >= 4`,
`prop` is `item[0]` (a non-string `item[0]` matches no `switch` case, which is
behaviourally identical to a string outside the five handled cases), and
`value` is `item[3]`. -/
inductive VValue where
  /-- a JSON string value -/
  | s (str : String)
  /-- a JSON array value (elements again modelled as `VValue`) -/
  | l (items : List VValue)
  /-- any other JSON value; `truthy` records its JavaScript truthiness -/
  | other (truthy : Bool)

structure VEntry where
  valid : Bool
  prop : String
  value : VValue

/-- `entities[i]` of the response.  `vcardArray` is optional; when present,
the code further checks `Array.isArray(entity.vcardArray[1])`, so the inner
`Option` records whether index 1 of the jCard is an array (and its items). -/
structure Entity where
  handle : String
  vcardArray : Option (Option (List VEntry))
  roles : Option (List String)

structure Event where
  eventAction : String
  eventDate : String
deriving DecidableEq, Repr

structure Notice where
  title : String
  description : List String
deriving DecidableEq, Repr

structure DSRecord where
  keyTag : Int
  algorithm : Int
  digestType : Int
  digest : String
deriving DecidableEq, Repr

structure SecureDNS where
  delegationSigned : Bool
  dsData : Option (List DSRecord)
deriving DecidableEq, Repr

structure IPAddresses where
  v4 : Option (List String)
  v6 : Option (List String)
deriving DecidableEq, Repr

structure Nameserver where
  ldhName : String
  handle : String
  ipAddresses : Option IPAddresses
  status : Option (List String)
deriving DecidableEq, Repr

/-- The parsed RDAP response (the Lookup Result).  `port43` and `lang` are
declared non-optional in the TypeScript type but the formatter guards them
with `|| "N/A"`, so they are modelled as optional. -/
structure RDAPResponse where
  handle : Option String
  ldhName : Option String
  entities : Option (List Entity)
  events : Option (List Event)
  status : Option (List String)
  port43 : Option String
  lang : Option String
  notices : Option (List Notice)
  secureDNS : Option SecureDNS
  nameservers : Option (List Nameserver)

/-- JavaScript `x || "N/A"` where `x : string | undefined`:
`undefined` and `""` are falsy and yield the placeholder. -/
def orNA : Option String → String
  | none => "N/A"
  | some s => if s = "" then "N/A" else s

/-- JavaScript truthiness of a jCard value (`filter(Boolean)`):
the empty string is falsy, every array is truthy. -/
def VValue.truthyB : VValue → Bool
  | .s str => !(str == "")
  | .l _ => true
  | .other t => t

/-- Template-literal stringification of a jCard value.  A string prints
itself; an array prints as its elements joined with `","`
(JavaScript `Array.prototype.toString`); other values print as some
opaque token (no claim depends on it). -/
def VValue.render : VValue → String
  | .s str => str
  | .l items => String.intercalate "," (items.attach.map fun x => x.1.render)
  | .other _ => "[object Object]"
  decreasing_by
    have h := List.sizeOf_lt_of_mem x.2
    simp only [VValue.l.sizeOf_spec]
    omega

/-- One iteration of the `switch` over a jCard property entry
(lines 124-149 of `App.tsx`). -/
def ventryLine (it : VEntry) : String :=
  if it.valid then
    if it.prop = "fn" then "Name: " ++ it.value.render ++ "\n"
    else if it.prop = "org" then "Organization: " ++ it.value.render ++ "\n"
    else if it.prop = "email" then "Email: " ++ it.value.render ++ "\n"
    else if it.prop = "tel" then "Phone: " ++ it.value.render ++ "\n"
    else if it.prop = "adr" then
      match it.value with
      | .l items =>
          "Address: " ++
            String.intercalate ", "
              ((items.filter VValue.truthyB).map VValue.render) ++ "\n"
      | _ => ""
    else ""
  else ""

/-- The vcard part of one contact block: only runs when `vcardArray` is
present and its index 1 is an array. -/
def vcardLines : Option (Option (List VEntry)) → String
  | some (some items) => String.join (items.map ventryLine)
  | _ => ""

/-- The grouped-by-role accumulator built by the `reduce` at lines
102-113: a record with one slot per rendered role, starting empty. -/
structure Grouped where
  registrant : Option Entity
  technical : Option Entity
  registrar : Option Entity

def Grouped.empty : Grouped := ⟨none, none, none⟩

/-- The body of `entity.roles?.forEach` for one role string: assign the
entity to the slot when the role is one of the three rendered ones. -/
def assignRole (e : Entity) (g : Grouped) (role : String) : Grouped :=
  if role = "registrant" then { g with registrant := some e }
  else if role = "technical" then { g with technical := some e }
  else if role = "registrar" then { g with registrar := some e }
  else g

/-- One step of the `reduce`: walk the entity's roles (an absent `roles`
contributes nothing) and assign the entity to each matching slot. -/
def insertEntity (g : Grouped) (e : Entity) : Grouped :=
  (e.roles.getD []).foldl (assignRole e) g

/-- The full `reduce` over `data.entities` with initial accumulator `{}`. -/
def groupEntities (es : List Entity) : Grouped :=
  es.foldl insertEntity Grouped.empty

/-- `groupedEntities[role]` for the three role strings the render loop
iterates over. -/
def Grouped.lookup (g : Grouped) : String → Option Entity
  | "registrant" => g.registrant
  | "technical" => g.technical
  | "registrar" => g.registrar
  | _ => none

/-- One contact block (lines 119-151): nothing when the slot is empty,
otherwise the role header, the handle line and the vcard lines. -/
def roleBlock (role : String) : Option Entity → String
  | none => ""
  | some e =>
      "\n" ++ role.toUpper ++ " Contact:\n" ++
      "Handle: " ++ e.handle ++ "\n" ++ vcardLines e.vcardArray

/-- The loop over the fixed array of roles
(line 117: it iterates over the literal list, not over the input order). -/
def contactBlocks (g : Grouped) : String :=
  (["registrant", "technical", "registrar"]).foldl
    (fun acc role => acc ++ roleBlock role (g.lookup role)) ""

/-- The contact section: rendered only when `data.entities?.length` is
truthy (absent or empty lists are skipped). -/
def contactsSection : Option (List Entity) → String
  | some (e :: es) =>
      "\n--- Contact Information ---\n" ++ contactBlocks (groupEntities (e :: es))
  | _ => ""

/-- The events section (lines 90-97); each date goes through the ambient
`renderDate` which models `new Date(d).toLocaleString()`. -/
def eventsSection (renderDate : String → String) : Option (List Event) → String
  | some (e :: es) =>
      "\n--- Important Dates ---\n" ++
        String.join ((e :: es).map fun ev =>
          ev.eventAction ++ ": " ++ renderDate ev.eventDate ++ "\n")
  | _ => ""

def dsLine (ds : DSRecord) : String :=
  "Key Tag: " ++ toString ds.keyTag ++ ", Algorithm: " ++ toString ds.algorithm ++
    ", Digest: " ++ ds.digest ++ "\n"

/-- The Secure DNS section (lines 155-161); rendered whenever `secureDNS`
is present, `dsData?.forEach` contributes nothing when absent. -/
def secureDNSSection : Option SecureDNS → String
  | none => ""
  | some sd =>
      "\n--- Secure DNS ---\n" ++
      "Delegation Signed: " ++ (if sd.delegationSigned then "true" else "false") ++ "\n" ++
      (match sd.dsData with
       | some l => String.join (l.map dsLine)
       | none => "")

/-- One nameserver block (lines 165-169):
`ns.ipAddresses?.v4?.join(", ") || "N/A"` and likewise for v6. -/
def renderNameserver (ns : Nameserver) : String :=
  "Nameserver: " ++ ns.ldhName ++ "\nHandle: " ++ ns.handle ++
  "\nIPv4: " ++ orNA ((ns.ipAddresses.bind IPAddresses.v4).map (String.intercalate ", ")) ++
  "\nIPv6: " ++ orNA ((ns.ipAddresses.bind IPAddresses.v6).map (String.intercalate ", ")) ++
  "\n\n"

/-- The nameserver section: rendered only when `data.nameservers?.length`
is truthy. -/
def nameserversSection : Option (List Nameserver) → String
  | some (n :: ns) =>
      "\n--- Nameservers ---\n" ++ String.join ((n :: ns).map renderNameserver)
  | _ => ""

/-- The notices section (lines 172-179). -/
def noticesSection : Option (List Notice) → String
  | some (n :: ns) =>
      "\n--- Notices ---\n" ++
        String.join ((n :: ns).map fun nt =>
          "Title: " ++ nt.title ++ "\nDescription: " ++
            String.intercalate " " nt.description ++ "\n\n")
  | _ => ""

/-- The five header lines of the report (lines 83-88). -/
def headerLines (d : RDAPResponse) : String :=
  "=== RDAP Domain Lookup Result ===\n" ++
  "Domain Name: " ++ orNA d.ldhName ++ "\n" ++
  "Handle: " ++ orNA d.handle ++ "\n" ++
  "Status: " ++ orNA (d.status.map (String.intercalate ", ")) ++ "\n" ++
  "Whois Server: " ++ orNA d.port43 ++ "\n" ++
  "Lang: " ++ orNA d.lang ++ "\n"

/-- `formatRDAPResult` (lines 80-182).  `renderDate` is the ambient
locale/time-zone dependent date renderer used for event dates. -/
def formatRDAPResult (renderDate : String → String) :
    Option RDAPResponse → String
  | none => "Domain lookup failed or no data available."
  | some d =>
      headerLines d ++
      eventsSection renderDate d.events ++
      contactsSection d.entities ++
      secureDNSSection d.secureDNS ++
      nameserversSection d.nameservers ++
      noticesSection d.notices

/-! ## Component state and the fetch transition -/

/-- The five `useState` hooks of `RDAPLookup`. -/
structure ComponentState where
  domain : String
  loading : Bool
  error : String
  result : Option RDAPResponse
  searched : Bool

/-- The outcome of the one network request `fetchRDAP` makes:
the response was ok and its JSON parsed to `data`; or the response was not
ok (`!response.ok`, which makes the code throw its fixed error message); or
`fetch` / `response.json()` threw — `isError` records whether the thrown
value was an `Error` instance (whose `message` is `msg`). -/
inductive FetchOutcome where
  | ok (data : RDAPResponse)
  | httpError
  | thrown (isError : Bool) (msg : String)

/-- `fetchRDAP` (lines 58-78) as a state transition, paired with the list
of HTTP GET request URLs it issues.  An empty `domain` returns before
touching any state; otherwise the four set-state calls run, the single
request is issued, and the outcome decides result or error, with
`setLoading(false)` in the `finally`. -/
def fetchRDAP (s : ComponentState) (o : FetchOutcome) :
    ComponentState × List String :=
  if s.domain = "" then (s, [])
  else
    let s1 : ComponentState :=
      { s with loading := true, error := "", result := none, searched := true }
    let s2 : ComponentState :=
      match o with
      | .ok d => { s1 with result := some d }
      | .httpError => { s1 with error := "Domain not found or RDAP lookup failed" }
      | .thrown isErr m => { s1 with error := if isErr then m else "An error occurred" }
    ({ s2 with loading := false }, ["https://rdap.org/domain/" ++ s.domain])

/-- The user events that can reach `fetchRDAP`. -/
inductive UserEvent where
  | clickSearch
  | keyDown (key : String)
deriving DecidableEq, Repr

/-- Whether the event invokes `fetchRDAP` in state `s`: the search button
carries `disabled={loading}`, so a disabled button ignores clicks; the
input's `onKeyDown` calls `fetchRDAP()` whenever the key is Enter,
with no loading check (line 214). -/
def invokesFetch (s : ComponentState) : UserEvent → Bool
  | .clickSearch => !s.loading
  | .keyDown k => k == "Enter"

/-- Whether the event actually starts a network request: `fetchRDAP` must
be invoked and the domain must be non-empty (the early return at line 59). -/
def startsRequest (s : ComponentState) (e : UserEvent) : Bool :=
  invokesFetch s e && !(s.domain == "")

/-- `handleDownload` (lines 184-196): nothing when there is no result;
otherwise the pair of the blob text and the suggested filename
`domain + "-rdap.txt"`. -/
def handleDownload (renderDate : String → String) (s : ComponentState) :
    Option (String × String) :=
  match s.result with
  | none => none
  | some r =>
      some (formatRDAPResult renderDate (some r), s.domain ++ "-rdap.txt")

/-! ## Concrete sample values -/

/-- A fixed ambient date renderer (used where the claim under scrutiny does
not depend on the locale). -/
def idDate : String → String := fun d => d

/-- Models `new Date(d).toLocaleString()` as observed under the `en-US`
locale in the UTC time zone for the sample timestamp below. -/
def usLocaleDate : String → String := fun _ => "1/1/2020, 12:00:00 AM"

/-- Models `new Date(d).toLocaleString()` as observed under the `de-DE`
locale in the Europe/Berlin time zone for the sample timestamp below. -/
def deLocaleDate : String → String := fun _ => "1.1.2020, 01:00:00"

/-- A response with all five header scalars present and every other
optional field absent. -/
def scalarOnlyData : RDAPResponse :=
  { handle := some "EXAMPLE-1"
    ldhName := some "example.com"
    entities := none
    events := none
    status := some ["active"]
    port43 := some "whois.example.com"
    lang := some "en"
    notices := none
    secureDNS := none
    nameservers := none }

/-- `scalarOnlyData` with one lifecycle event added. -/
def eventOnlyData : RDAPResponse :=
  { scalarOnlyData with
    events := some [{ eventAction := "registration", eventDate := "2020-01-01T00:00:00Z" }] }

/-- The component state right after the page loads, with a domain typed in. -/
def sampleState : ComponentState :=
  { domain := "example.com", loading := false, error := "", result := none, searched := false }

/-- The committed component state while a fetch is in flight: `loading` was
set to `true` and the previous result cleared. -/
def busyState : ComponentState :=
  { domain := "example.com", loading := true, error := "", result := none, searched := true }

/-! ## Claim theorems -/

/-- **C2.** For every state with a non-empty domain and every outcome of the
single network request, after `fetchRDAP` completes the loading flag is
false; on success the result state holds the parsed object and the error
state is empty; on a non-ok response the error state is the fixed message
and the result state is null; on a thrown exception the error state is
non-empty and the result state is null.  The hypothesis `hmsg` excludes the
one outcome the code cannot produce, an `Error` instance carrying an empty
message: every throw reachable in the `try` block carries a non-empty
message (the fixed string at line 69, or a network/JSON error). -/
theorem C2_success_failure_states (s : ComponentState) (o : FetchOutcome)
    (hd : s.domain ≠ "") (hmsg : o ≠ .thrown true "") :
    (fetchRDAP s o).1.loading = false
    ∧ (∀ d, o = .ok d → (fetchRDAP s o).1.result = some d ∧ (fetchRDAP s o).1.error = "")
    ∧ (o = .httpError →
        (fetchRDAP s o).1.error = "Domain not found or RDAP lookup failed"
        ∧ (fetchRDAP s o).1.result = none)
    ∧ (∀ b m, o = .thrown b m →
        (fetchRDAP s o).1.error ≠ "" ∧ (fetchRDAP s o).1.result = none) := by
  cases o with
  | ok d => simp [fetchRDAP, hd]
  | httpError => simp [fetchRDAP, hd]
  | thrown b m =>
      refine ⟨by simp [fetchRDAP, hd], by simp, by simp, ?_⟩
      intro b' m' h
      injection h with hb hm
      subst hb; subst hm
      refine ⟨?_, by simp [fetchRDAP, hd]⟩
      cases b with
      | true =>
          have hm' : m ≠ "" := fun h' => hmsg (by rw [h'])
          simp [fetchRDAP, hd, hm']
      | false => simp [fetchRDAP, hd]

theorem C2_success_failure_states_witness :
    sampleState.domain ≠ ""
    ∧ (FetchOutcome.ok scalarOnlyData ≠ .thrown true "")
    ∧ ((fetchRDAP sampleState (.ok scalarOnlyData)).1.loading = false
       ∧ (∀ d, FetchOutcome.ok scalarOnlyData = .ok d →
            (fetchRDAP sampleState (.ok scalarOnlyData)).1.result = some d
            ∧ (fetchRDAP sampleState (.ok scalarOnlyData)).1.error = "")
       ∧ (FetchOutcome.ok scalarOnlyData = .httpError →
            (fetchRDAP sampleState (.ok scalarOnlyData)).1.error = "Domain not found or RDAP lookup failed"
            ∧ (fetchRDAP sampleState (.ok scalarOnlyData)).1.result = none)
       ∧ (∀ b m, FetchOutcome.ok scalarOnlyData = .thrown b m →
            (fetchRDAP sampleState (.ok scalarOnlyData)).1.error ≠ ""
            ∧ (fetchRDAP sampleState (.ok scalarOnlyData)).1.result = none)) :=
  ⟨by decide, fun h => FetchOutcome.noConfusion h,
    C2_success_failure_states sampleState (.ok scalarOnlyData) (by decide)
      (fun h => FetchOutcome.noConfusion h)⟩

/-- **C3, counterexample.** In the committed state during an in-flight
request (`loading = true`, non-empty domain), pressing Enter in the input
field does invoke `fetchRDAP` and does start a second network request: the
`onKeyDown` handler at line 214 has no loading check. -/
theorem C3_counterexample :
    busyState.loading = true
    ∧ invokesFetch busyState (.keyDown "Enter") = true
    ∧ startsRequest busyState (.keyDown "Enter") = true :=
  ⟨rfl, by decide, by decide⟩

/-- **C3, amended.** While the loading flag is true the search button
cannot start a second invocation of `fetchRDAP` (it is rendered with
`disabled={loading}`), but the Enter key in the input field is not gated by
the loading flag: it always invokes `fetchRDAP`, and it starts a second
network request whenever the domain is non-empty. -/
theorem C3_only_button_gated (s : ComponentState) (h : s.loading = true) :
    invokesFetch s .clickSearch = false
    ∧ invokesFetch s (.keyDown "Enter") = true
    ∧ (s.domain ≠ "" → startsRequest s (.keyDown "Enter") = true) := by
  refine ⟨by simp [invokesFetch, h], by simp [invokesFetch], ?_⟩
  intro hd
  simp [startsRequest, invokesFetch, hd]

theorem C3_only_button_gated_witness :
    busyState.loading = true
    ∧ (invokesFetch busyState .clickSearch = false
       ∧ invokesFetch busyState (.keyDown "Enter") = true
       ∧ (busyState.domain ≠ "" → startsRequest busyState (.keyDown "Enter") = true)) :=
  ⟨rfl, C3_only_button_gated busyState rfl⟩

/-- **C5.** For every state with a non-empty domain and every request
outcome, one invocation of `fetchRDAP` issues exactly one HTTP GET, whose
URL is the fixed endpoint with the domain appended. -/
theorem C5_one_request_fixed_url (s : ComponentState) (o : FetchOutcome)
    (h : s.domain ≠ "") :
    (fetchRDAP s o).2 = ["https://rdap.org/domain/" ++ s.domain] := by
  simp [fetchRDAP, h]

theorem C5_one_request_fixed_url_witness :
    sampleState.domain ≠ ""
    ∧ (fetchRDAP sampleState .httpError).2 = ["https://rdap.org/domain/" ++ sampleState.domain] :=
  ⟨by decide, C5_one_request_fixed_url sampleState .httpError (by decide)⟩

/-- **C6.** Whenever a result is stored, `handleDownload` produces the
plain-text report for that result together with the suggested filename,
and the filename is the domain string followed by `-rdap.txt`. -/
theorem C6_download_filename (rd : String → String) (s : ComponentState)
    (r : RDAPResponse) (h : s.result = some r) :
    handleDownload rd s = some (formatRDAPResult rd (some r), s.domain ++ "-rdap.txt") := by
  simp [handleDownload, h]

theorem C6_download_filename_witness :
    ({ sampleState with result := some scalarOnlyData } : ComponentState).result = some scalarOnlyData
    ∧ handleDownload idDate { sampleState with result := some scalarOnlyData } =
        some (formatRDAPResult idDate (some scalarOnlyData),
          ({ sampleState with result := some scalarOnlyData } : ComponentState).domain ++ "-rdap.txt") :=
  ⟨rfl, C6_download_filename idDate { sampleState with result := some scalarOnlyData }
    scalarOnlyData rfl⟩

/-- **C7.** The stored result is replaced wholesale: for every state with a
non-empty domain, after `fetchRDAP` the result is exactly the newly parsed
object on success and null on any failure (it was cleared first), and the
entire post-state is independent of the previously stored result and error
(no field of the previous result is retained or merged). -/
theorem C7_result_replaced_wholesale (s : ComponentState) (o : FetchOutcome)
    (h : s.domain ≠ "") :
    ((fetchRDAP s o).1.result = match o with | .ok d => some d | _ => none)
    ∧ (∀ r e, (fetchRDAP { s with result := r, error := e } o).1 = (fetchRDAP s o).1) := by
  constructor
  · cases o <;> simp [fetchRDAP, h]
  · intro r e
    simp [fetchRDAP, h]

theorem C7_result_replaced_wholesale_witness :
    sampleState.domain ≠ ""
    ∧ (((fetchRDAP sampleState (.ok eventOnlyData)).1.result =
          match FetchOutcome.ok eventOnlyData with | .ok d => some d | _ => none)
       ∧ (∀ r e, (fetchRDAP { sampleState with result := r, error := e } (.ok eventOnlyData)).1 =
            (fetchRDAP sampleState (.ok eventOnlyData)).1)) :=
  ⟨by decide, C7_result_replaced_wholesale sampleState (.ok eventOnlyData) (by decide)⟩

/-- **C8.** With an empty domain string, `fetchRDAP` is a no-op: no HTTP
request is issued and the component state (loading, error, result,
searched) is returned unchanged. -/
theorem C8_empty_domain_noop (s : ComponentState) (o : FetchOutcome)
    (h : s.domain = "") :
    fetchRDAP s o = (s, []) := by
  simp [fetchRDAP, h]

/-! ## Characterisation of the role grouping -/

/-- An entity carries role `r` (an absent `roles` field carries nothing). -/
def hasRole (r : String) (e : Entity) : Bool :=
  (e.roles.getD []).any (fun x => x == r)

/-- The entity occurring last in the input list among those carrying role
`r`: specification-side description of the grouping's last-writer-wins
behaviour. -/
def lastWithRole (r : String) (es : List Entity) : Option Entity :=
  (es.filter (hasRole r)).getLast?

theorem getLast?_cons_eq_or {α : Type} (a : α) (l : List α) :
    (a :: l).getLast? = l.getLast?.or (some a) := by
  rw [← List.head?_reverse, List.reverse_cons, List.head?_append, List.head?_reverse]
  rfl

theorem assignRole_registrant (g : Grouped) (e : Entity) (r : String) :
    (assignRole e g r).registrant = if r = "registrant" then some e else g.registrant := by
  by_cases h1 : r = "registrant"
  · subst h1; simp [assignRole]
  · by_cases h2 : r = "technical"
    · subst h2; simp [assignRole]
    · by_cases h3 : r = "registrar"
      · subst h3; simp [assignRole]
      · simp [assignRole, h1, h2, h3]

theorem assignRole_technical (g : Grouped) (e : Entity) (r : String) :
    (assignRole e g r).technical = if r = "technical" then some e else g.technical := by
  by_cases h1 : r = "registrant"
  · subst h1; simp [assignRole]
  · by_cases h2 : r = "technical"
    · subst h2; simp [assignRole]
    · by_cases h3 : r = "registrar"
      · subst h3; simp [assignRole]
      · simp [assignRole, h1, h2, h3]

theorem assignRole_registrar (g : Grouped) (e : Entity) (r : String) :
    (assignRole e g r).registrar = if r = "registrar" then some e else g.registrar := by
  by_cases h1 : r = "registrant"
  · subst h1; simp [assignRole]
  · by_cases h2 : r = "technical"
    · subst h2; simp [assignRole]
    · by_cases h3 : r = "registrar"
      · subst h3; simp [assignRole]
      · simp [assignRole, h1, h2, h3]

/-- The inner `forEach` over one entity's roles, seen through a slot `sel`
that `assignRole` updates exactly on `role`. -/
theorem foldl_assignRole_proj (sel : Grouped → Option Entity) (role : String)
    (hsel : ∀ g x r, sel (assignRole x g r) = if r = role then some x else sel g)
    (e : Entity) (rs : List String) (g : Grouped) :
    sel (rs.foldl (assignRole e) g) =
      if rs.any (fun x => x == role) then some e else sel g := by
  induction rs generalizing g with
  | nil => simp
  | cons r rs ih =>
      simp only [List.foldl_cons, List.any_cons, ih, hsel]
      by_cases h : r = role
      · subst h; simp
      · simp [h]

theorem insertEntity_proj (sel : Grouped → Option Entity) (role : String)
    (hsel : ∀ g x r, sel (assignRole x g r) = if r = role then some x else sel g)
    (g : Grouped) (e : Entity) :
    sel (insertEntity g e) = if hasRole role e then some e else sel g :=
  foldl_assignRole_proj sel role hsel e (e.roles.getD []) g

/-- The outer `reduce`, seen through a slot: the slot ends up holding the
last entity of the list carrying the slot's role, or its previous content
when no entity carries it. -/
theorem foldl_insertEntity_proj (sel : Grouped → Option Entity) (role : String)
    (hsel : ∀ g x r, sel (assignRole x g r) = if r = role then some x else sel g)
    (es : List Entity) (g : Grouped) :
    sel (es.foldl insertEntity g) = (lastWithRole role es).or (sel g) := by
  induction es generalizing g with
  | nil => simp [lastWithRole]
  | cons e es ih =>
      simp only [List.foldl_cons, ih]
      by_cases h : hasRole role e
      · rw [insertEntity_proj sel role hsel, if_pos h]
        simp only [lastWithRole, List.filter_cons_of_pos h, getLast?_cons_eq_or,
          Option.or_assoc, Option.or_some]
      · rw [insertEntity_proj sel role hsel, if_neg h]
        simp only [lastWithRole, List.filter_cons_of_neg h]

/-- A roles list containing none of the three rendered roles leaves the
accumulator untouched. -/
theorem foldl_assignRole_id (e : Entity) (rs : List String) (g : Grouped)
    (he : ∀ r ∈ rs, r ≠ "registrant" ∧ r ≠ "technical" ∧ r ≠ "registrar") :
    rs.foldl (assignRole e) g = g := by
  induction rs generalizing g with
  | nil => rfl
  | cons r rs ih =>
      have hr := he r (by simp)
      have hstep : assignRole e g r = g := by
        simp [assignRole, hr.1, hr.2.1, hr.2.2]
      simp only [List.foldl_cons, hstep]
      exact ih g (fun x hx => he x (by simp [hx]))

/-- **C1, counterexample.** A response whose five header scalars are present
but whose events, entities, secure DNS data, nameservers and notices are all
absent renders as the bare header block: the absent optional fields the
claim lists (event dates, contact name-card fields, DNSSEC data, nameserver
addresses, notices) produce no placeholder at all — the report contains no
occurrence of the placeholder string and the corresponding sections are
silently omitted. -/
theorem C1_counterexample :
    formatRDAPResult idDate (some scalarOnlyData) =
      "=== RDAP Domain Lookup Result ===\nDomain Name: example.com\nHandle: EXAMPLE-1\nStatus: active\nWhois Server: whois.example.com\nLang: en\n"
    ∧ ¬ ("N/A".data <:+: (formatRDAPResult idDate (some scalarOnlyData)).data) := by
  exact ⟨rfl, by decide⟩

/-- **C1, amended.** The placeholder substitution applies only to the five
header scalars (domain name, handle, status list, whois server, lang) and
to the per-nameserver v4/v6 address lists: each of these renders, when
absent, exactly as if it held the placeholder string "N/A".  All other
absent optional fields (events, contact entities, secure DNS, nameservers,
notices) are silently omitted: with all of them absent the report is
exactly the five-line header block. -/
theorem C1_placeholders_header_only (rd : String → String) (d : RDAPResponse)
    (ns : Nameserver) (ipa : IPAddresses) :
    formatRDAPResult rd (some { d with ldhName := none }) =
      formatRDAPResult rd (some { d with ldhName := some "N/A" })
    ∧ formatRDAPResult rd (some { d with handle := none }) =
      formatRDAPResult rd (some { d with handle := some "N/A" })
    ∧ formatRDAPResult rd (some { d with status := none }) =
      formatRDAPResult rd (some { d with status := some ["N/A"] })
    ∧ formatRDAPResult rd (some { d with port43 := none }) =
      formatRDAPResult rd (some { d with port43 := some "N/A" })
    ∧ formatRDAPResult rd (some { d with lang := none }) =
      formatRDAPResult rd (some { d with lang := some "N/A" })
    ∧ renderNameserver { ns with ipAddresses := none } =
      renderNameserver { ns with ipAddresses := some { v4 := some ["N/A"], v6 := some ["N/A"] } }
    ∧ renderNameserver { ns with ipAddresses := some { ipa with v4 := none } } =
      renderNameserver { ns with ipAddresses := some { ipa with v4 := some ["N/A"] } }
    ∧ renderNameserver { ns with ipAddresses := some { ipa with v6 := none } } =
      renderNameserver { ns with ipAddresses := some { ipa with v6 := some ["N/A"] } }
    ∧ formatRDAPResult rd
        (some { d with events := none, entities := none, secureDNS := none, nameservers := none, notices := none }) = headerLines d := by
  refine ⟨rfl, rfl, rfl, rfl, rfl, rfl, rfl, rfl, ?_⟩
  simp [formatRDAPResult, eventsSection, contactsSection, secureDNSSection,
    nameserversSection, noticesSection, headerLines]

/-- **C4, counterexample.** Rendering is not a function of the input object
alone: the same response, formatted under two different ambient
locale/time-zone environments (two behaviours of
`new Date(d).toLocaleString()`), yields two different reports, because
event dates go through `toLocaleString`. -/
theorem C4_counterexample :
    formatRDAPResult usLocaleDate (some eventOnlyData) ≠
      formatRDAPResult deLocaleDate (some eventOnlyData) := by
  decide

/-- **C4, amended.** Rendering is deterministic in the input except for
event dates: for every response with no events (the field absent or the
empty list), the report is identical under every ambient locale/time-zone
date renderer; the event-date lines are the only locale-dependent output. -/
theorem C4_deterministic_without_events (rd1 rd2 : String → String)
    (d : RDAPResponse) (h : d.events = none ∨ d.events = some []) :
    formatRDAPResult rd1 (some d) = formatRDAPResult rd2 (some d) := by
  rcases h with h | h <;> simp [formatRDAPResult, h, eventsSection]

theorem C4_deterministic_without_events_witness :
    (scalarOnlyData.events = none ∨ scalarOnlyData.events = some [])
    ∧ formatRDAPResult usLocaleDate (some scalarOnlyData) =
        formatRDAPResult deLocaleDate (some scalarOnlyData) :=
  ⟨Or.inl rfl,
    C4_deterministic_without_events usLocaleDate deLocaleDate scalarOnlyData (Or.inl rfl)⟩

/-- **C10.** An empty list renders the same as an absent one: a response
whose status is the empty list renders identically to one with no status
field, and its Status line reads the placeholder (it renders exactly as a
status of ["N/A"] would; the concrete conjunct exhibits the literal
"Status: N/A" line); a nameserver whose v4 (resp. v6) list is empty renders
identically to one whose v4 (resp. v6) field is absent. -/
theorem C10_empty_list_renders_as_absent (rd : String → String)
    (d : RDAPResponse) (ns : Nameserver) (ipa : IPAddresses) :
    formatRDAPResult rd (some { d with status := some [] }) =
      formatRDAPResult rd (some { d with status := none })
    ∧ formatRDAPResult rd (some { d with status := some [] }) =
      formatRDAPResult rd (some { d with status := some ["N/A"] })
    ∧ ("Status: N/A\n".data <:+:
        (formatRDAPResult idDate (some { scalarOnlyData with status := some [] })).data)
    ∧ renderNameserver { ns with ipAddresses := some { ipa with v4 := some [] } } =
      renderNameserver { ns with ipAddresses := some { ipa with v4 := none } }
    ∧ renderNameserver { ns with ipAddresses := some { ipa with v6 := some [] } } =
      renderNameserver { ns with ipAddresses := some { ipa with v6 := none } } := by
  exact ⟨rfl, rfl, by decide, rfl, rfl⟩

theorem C8_empty_domain_noop_witness :
    ({ sampleState with domain := "" } : ComponentState).domain = ""
    ∧ fetchRDAP { sampleState with domain := "" } .httpError =
        ({ sampleState with domain := "" }, []) :=
  ⟨rfl, C8_empty_domain_noop { sampleState with domain := "" } .httpError rfl⟩

/-- **C9.** Contact rendering groups entities by role with last-writer-wins
and a fixed output order: each of the three rendered slots of the grouping
holds exactly the entity occurring last in the input list among those
carrying that role; the contact blocks are emitted in the fixed order
registrant, technical, registrar regardless of input order; and an entity
carrying none of the three rendered roles is ignored (inserting it anywhere
leaves the grouping unchanged). -/
theorem C9_role_grouping (es l1 l2 : List Entity) (e : Entity)
    (he : ∀ r ∈ e.roles.getD [], r ≠ "registrant" ∧ r ≠ "technical" ∧ r ≠ "registrar") :
    (groupEntities es).registrant = lastWithRole "registrant" es
    ∧ (groupEntities es).technical = lastWithRole "technical" es
    ∧ (groupEntities es).registrar = lastWithRole "registrar" es
    ∧ contactBlocks (groupEntities es) =
        roleBlock "registrant" (groupEntities es).registrant ++
          (roleBlock "technical" (groupEntities es).technical ++
            roleBlock "registrar" (groupEntities es).registrar)
    ∧ groupEntities (l1 ++ e :: l2) = groupEntities (l1 ++ l2) := by
  refine ⟨?_, ?_, ?_, ?_, ?_⟩
  · rw [groupEntities, foldl_insertEntity_proj Grouped.registrant "registrant"
      assignRole_registrant]
    exact Option.or_none
  · rw [groupEntities, foldl_insertEntity_proj Grouped.technical "technical"
      assignRole_technical]
    exact Option.or_none
  · rw [groupEntities, foldl_insertEntity_proj Grouped.registrar "registrar"
      assignRole_registrar]
    exact Option.or_none
  · simp [contactBlocks, Grouped.lookup, String.append_assoc]
  · have hins : ∀ g : Grouped, insertEntity g e = g := fun g =>
      foldl_assignRole_id e (e.roles.getD []) g he
    rw [groupEntities, groupEntities, List.foldl_append, List.foldl_append,
      List.foldl_cons, hins]

/-- Carries only the registrant role. -/
def registrantEntityA : Entity :=
  { handle := "R-A", vcardArray := none, roles := some ["registrant"] }

/-- Occurs later in the sample list and also carries the registrant role,
so it must win the registrant slot. -/
def registrantEntityB : Entity :=
  { handle := "R-B"
    vcardArray := some (some [{ valid := true, prop := "fn", value := .s "Bob" }])
    roles := some ["registrant", "technical"] }

/-- Carries only a role outside the three rendered ones. -/
def abuseEntity : Entity :=
  { handle := "AB-1", vcardArray := none, roles := some ["abuse"] }

theorem C9_role_grouping_witness :
    (∀ r ∈ abuseEntity.roles.getD [],
        r ≠ "registrant" ∧ r ≠ "technical" ∧ r ≠ "registrar")
    ∧ ((groupEntities [registrantEntityA, registrantEntityB, abuseEntity]).registrant =
          lastWithRole "registrant" [registrantEntityA, registrantEntityB, abuseEntity]
       ∧ (groupEntities [registrantEntityA, registrantEntityB, abuseEntity]).technical =
          lastWithRole "technical" [registrantEntityA, registrantEntityB, abuseEntity]
       ∧ (groupEntities [registrantEntityA, registrantEntityB, abuseEntity]).registrar =
          lastWithRole "registrar" [registrantEntityA, registrantEntityB, abuseEntity]
       ∧ contactBlocks (groupEntities [registrantEntityA, registrantEntityB, abuseEntity]) =
          roleBlock "registrant"
              (groupEntities [registrantEntityA, registrantEntityB, abuseEntity]).registrant ++
            (roleBlock "technical"
                (groupEntities [registrantEntityA, registrantEntityB, abuseEntity]).technical ++
              roleBlock "registrar"
                (groupEntities [registrantEntityA, registrantEntityB, abuseEntity]).registrar)
       ∧ groupEntities ([registrantEntityA] ++ abuseEntity :: [registrantEntityB]) =
          groupEntities ([registrantEntityA] ++ [registrantEntityB])) :=
  ⟨by decide,
    C9_role_grouping [registrantEntityA, registrantEntityB, abuseEntity]
      [registrantEntityA] [registrantEntityB] abuseEntity (by decide)⟩

end RDAP
